import Mathlib

/-!
Verification development for the `bevy_atmosphere` splitscreen repository.

The repository consists of the splitscreen example
(`examples/splitscreen.rs`) and the collection module declaration
(`src/collection/mod.rs`, which only declares the `nishita` module).
We embed the example's data and systems directly from the source.
The parts of the crate that are declared but whose bodies are not in the
sources (the `Nishita` scattering model and the camera/sky binding that
the specification abstracts as `bind`/`resolve`/`unbind`) are modelled
from the specification, with their doc comments marking them as such.
-/

namespace Atmosphere

/-- A set of render layers (`bevy::render::view::RenderLayers`),
embedded as a finite set of layer indices. -/
abbrev RenderLayers := Finset ℕ

/-- `RenderLayers::from_layers(&[0, 1])` on the left camera
(`examples/splitscreen.rs` line 63). -/
def leftCameraRenderLayers : RenderLayers := {0, 1}

/-- `RenderLayers::from_layers(&[0, 2])` on the right camera
(`examples/splitscreen.rs` line 86). -/
def rightCameraRenderLayers : RenderLayers := {0, 2}

/-- The left camera's `AtmosphereCamera.render_layers`:
`Some(RenderLayers::layer(1))` (`examples/splitscreen.rs` line 65).
The `AtmosphereCamera` struct literal in the example is exhaustive, so the
component carries exactly this one field. -/
def leftAtmosphereCamera : Option RenderLayers := some {1}

/-- The right camera's `AtmosphereCamera.render_layers`:
`Some(RenderLayers::layer(2))` (`examples/splitscreen.rs` line 88). -/
def rightAtmosphereCamera : Option RenderLayers := some {2}

/-- The ground plane is spawned without a `RenderLayers` component
(`examples/splitscreen.rs` lines 38-41), so it lives on the engine's
default render layer 0. -/
def planeRenderLayers : RenderLayers := {0}

/-- The directional light is spawned without a `RenderLayers` component
(`examples/splitscreen.rs` lines 44-55), so it lives on the default
render layer 0. -/
def lightRenderLayers : RenderLayers := {0}

/-- Geometry on layer set `geom` is visible to a camera viewing layer set
`cam` exactly when the two sets intersect. -/
def visibleTo (geom cam : RenderLayers) : Prop := ¬ Disjoint geom cam

end Atmosphere

namespace Splitscreen

/-- A camera viewport (`bevy::render::camera::Viewport`): physical pixel
position and size.  Only the fields the example sets are embedded; the
depth range keeps its default and is omitted. -/
structure Viewport where
  physical_position : ℕ × ℕ
  physical_size : ℕ × ℕ
deriving DecidableEq, Repr

/-- The part of a `Camera` component touched by `set_camera_viewports`:
its optional viewport. -/
structure Camera where
  viewport : Option Viewport
deriving DecidableEq, Repr

/-- A `WindowResized` event: the identifier of the resized window. -/
structure WindowResized where
  window : ℕ
deriving DecidableEq, Repr

/-- The mutable state of `set_camera_viewports`: the entities matched by
the left-camera query and by the right-camera query.  Lists mirror Bevy
queries; `single_mut` succeeds exactly when the list has one element. -/
structure CamState where
  left : List Camera
  right : List Camera
deriving DecidableEq, Repr

/-- `Query::single_mut` semantics for a viewport update: the update is
applied when the query matches exactly one entity, otherwise
(`if let Ok(..)` fails) nothing happens. -/
def updateSingle (cs : List Camera) (v : Viewport) : List Camera :=
  match cs with
  | [c] => [{ c with viewport := some v }]
  | _ => cs

/-- The viewport `set_camera_viewports` gives the left camera for a window
of physical size `(w, h)`: position `(0, 0)`, size `(w / 2, h)`
(`examples/splitscreen.rs` lines 113-117). -/
def leftViewport (w h : ℕ) : Viewport :=
  { physical_position := (0, 0), physical_size := (w / 2, h) }

/-- The viewport `set_camera_viewports` gives the right camera for a window
of physical size `(w, h)`: position `(w / 2, 0)`, size `(w / 2, h)`
(`examples/splitscreen.rs` lines 121-125). -/
def rightViewport (w h : ℕ) : Viewport :=
  { physical_position := (w / 2, 0), physical_size := (w / 2, h) }

/-- Processing of one `WindowResized` event by `set_camera_viewports`:
the event's window is looked up (`windows.get(..).unwrap()` panics when
absent, embedded as `none`), and each camera query that matches exactly
one camera has its viewport replaced. -/
def applyResize (windows : ℕ → Option (ℕ × ℕ)) (s : CamState)
    (ev : WindowResized) : Option CamState :=
  match windows ev.window with
  | none => none
  | some (w, h) =>
      some { left := updateSingle s.left (leftViewport w h),
             right := updateSingle s.right (rightViewport w h) }

/-- The `set_camera_viewports` system (`examples/splitscreen.rs` lines
101-128): fold `applyResize` over the frame's `WindowResized` events. -/
def set_camera_viewports (windows : ℕ → Option (ℕ × ℕ))
    (evs : List WindowResized) (s : CamState) : Option CamState :=
  evs.foldl (fun acc ev => acc.bind fun st => applyResize windows st ev)
    (some s)

/-- The pixel columns a viewport spans. -/
def columns (v : Viewport) : Finset ℕ :=
  Finset.Ico v.physical_position.1 (v.physical_position.1 + v.physical_size.1)

/-- `SpectatorSettings` as used by the example: the active spectator
entity and the two speed fields `main` overrides. -/
structure SpectatorSettings where
  active_spectator : Option ℕ
  base_speed : ℚ
  alt_speed : ℚ
deriving DecidableEq, Repr

/-- The `switch_camera` system (`examples/splitscreen.rs` lines 130-155).
`leftQ` and `rightQ` are the entities matched by the two camera queries;
`Query::single` succeeds exactly on a one-element list, and each failed
`let Ok(..) else return` leaves the settings unchanged.  On an `E` press
the active spectator becomes the right camera when it was the left
camera, and the left camera in every other case. -/
def switch_camera (pressedE : Bool) (leftQ rightQ : List ℕ)
    (s : SpectatorSettings) : SpectatorSettings :=
  match leftQ with
  | [left] =>
      match rightQ with
      | [right] =>
          if pressedE then
            match s.active_spectator with
            | some spectator =>
                if spectator = left then
                  { s with active_spectator := some right }
                else
                  { s with active_spectator := some left }
            | none => { s with active_spectator := some left }
          else s
      | _ => s
  | _ => s

end Splitscreen

namespace Atmosphere

/-- Modelled from the spec: the `ScatteringParameters` of the Nishita
model (`src/collection/nishita.rs` is declared by `src/collection/mod.rs`
but its body is not among the sources).  The fields follow the
configuration surface of section 6 of the specification:
`rayleigh_coefficient` (per-wavelength vector of 3), `mie_coefficient`,
`mie_direction` (Mie phase asymmetry), `sun_intensity`, `planet_radius`
and `atmosphere_radius`.  Values are exact rationals. -/
structure ScatteringParameters where
  rayleigh_coefficient : ℚ × ℚ × ℚ
  mie_coefficient : ℚ
  mie_direction : ℚ
  sun_intensity : ℚ
  planet_radius : ℚ
  atmosphere_radius : ℚ
deriving DecidableEq, Repr

/-- Modelled from the spec: the default `Nishita` coefficients — the
parameters "created at startup with defaults".  The numeric values are
the Nishita model's documented defaults that the example overrides
(rayleigh `(5.5e-6, 13.0e-6, 22.4e-6)`, mie `21e-6`, direction `0.758`,
sun intensity `22`, planet radius `6371e3`, atmosphere radius
`6471e3`). -/
def defaultNishita : ScatteringParameters :=
  { rayleigh_coefficient := (11 / 2000000, 13 / 1000000, 28 / 1250000)
    mie_coefficient := 21 / 1000000
    mie_direction := 758 / 1000
    sun_intensity := 22
    planet_radius := 6371000
    atmosphere_radius := 6471000 }

/-- The parameters the example's `main` inserts:
`AtmosphereModel::new(Nishita { rayleigh_coefficient:
Vec3::new(22.4e-6, 5.5e-6, 13.0e-6), ..default() })`
(`examples/splitscreen.rs` lines 15-18). -/
def exampleNishita : ScatteringParameters :=
  { defaultNishita with
      rayleigh_coefficient := (28 / 1250000, 11 / 2000000, 13 / 1000000) }

/-- Doubling every channel of `rayleigh_coefficient`, all other
parameters held fixed (the spec's end-to-end scenario builds its second
parameter set this way). -/
def doubleRayleigh (p : ScatteringParameters) : ScatteringParameters :=
  { p with
      rayleigh_coefficient :=
        (2 * p.rayleigh_coefficient.1, 2 * p.rayleigh_coefficient.2.1,
          2 * p.rayleigh_coefficient.2.2) }

/-- A process-wide resource the example application inserts in `main`. -/
inductive AppResource where
  | atmosphereModel (p : ScatteringParameters)
  | spectatorSettings (base_speed alt_speed : ℚ)
deriving DecidableEq, Repr

/-- Whether a resource is an `AtmosphereModel`. -/
def AppResource.isAtmosphereModel : AppResource → Bool
  | .atmosphereModel _ => true
  | _ => false

/-- The resources the example's `main` inserts
(`examples/splitscreen.rs` lines 15-23): one `AtmosphereModel` and one
`SpectatorSettings`. -/
def appResources : List AppResource :=
  [.atmosphereModel exampleNishita, .spectatorSettings (1 / 2) 1]

/-- A component attached to a camera entity, as far as sky parameter
resolution is concerned: its `AtmosphereCamera` skybox layers, or — the
option the spec allows but the example never uses — a per-camera
`ScatteringParameters` instance. -/
inductive CameraComponent where
  | atmosphereCamera (render_layers : Option RenderLayers)
  | paramsInstance (p : ScatteringParameters)
deriving DecidableEq

/-- Whether a component is a per-camera parameter instance. -/
def CameraComponent.isParamsInstance : CameraComponent → Bool
  | .paramsInstance _ => true
  | _ => false

/-- The sky-relevant components of the left camera
(`examples/splitscreen.rs` lines 58-70): only an `AtmosphereCamera`
with skybox layers `{1}`. -/
def leftCameraComponents : List CameraComponent :=
  [.atmosphereCamera leftAtmosphereCamera]

/-- The sky-relevant components of the right camera
(`examples/splitscreen.rs` lines 75-92): only an `AtmosphereCamera`
with skybox layers `{2}`. -/
def rightCameraComponents : List CameraComponent :=
  [.atmosphereCamera rightAtmosphereCamera]

/-- Modelled from the spec: which `ScatteringParameters` a camera's sky
evaluation reads — its own per-camera instance when it carries one,
otherwise the single shared instance ("by default the single shared
instance; optionally a distinct instance").  The sharing rule itself is
not among the sources; only its use by the example is. -/
def resolveParams (components : List CameraComponent)
    (shared : ScatteringParameters) : ScatteringParameters :=
  match components.find? CameraComponent.isParamsInstance with
  | some (.paramsInstance p) => p
  | _ => shared

/-- A record in the camera-sky binding table: the camera's render-layer
set and the parameter instance it samples. -/
structure Binding where
  layer_set : RenderLayers
  params : ScatteringParameters
deriving DecidableEq

/-- Modelled from the spec: the error taxonomy of the binding component —
only `UnboundCamera`. -/
inductive BindError where
  | UnboundCamera
deriving DecidableEq, Repr

/-- The binding table: a map from camera identities to bindings. -/
def BindState := ℕ → Option Binding

/-- The empty binding table: no camera is bound. -/
def emptyBindings : BindState := fun _ => none

/-- Modelled from the spec: `bind(camera, layer_set, params_ref)`
registers or updates the association, replacing any prior binding of the
same camera (the binding component's body is not among the sources). -/
def bind (st : BindState) (camera : ℕ) (layer_set : RenderLayers)
    (params : ScatteringParameters) : BindState :=
  fun c => if c = camera then some ⟨layer_set, params⟩ else st c

/-- Modelled from the spec: `resolve(camera)` looks up the current
binding and fails with `UnboundCamera` when the camera was never
bound. -/
def resolve (st : BindState) (camera : ℕ) : Except BindError Binding :=
  match st camera with
  | some b => .ok b
  | none => .error .UnboundCamera

/-- Modelled from the spec: `unbind(camera)` removes the association. -/
def unbind (st : BindState) (camera : ℕ) : BindState :=
  fun c => if c = camera then none else st c

/-- The binding table of the spec's end-to-end splitscreen scenario:
camera L (entity 0) bound to layer set `{1}` with the default Nishita
parameters P1, camera R (entity 1) bound to layer set `{2}` with P2,
the default with `rayleigh_coefficient` doubled. -/
def scenarioBindings : BindState :=
  bind (bind emptyBindings 0 {1} defaultNishita) 1 {2}
    (doubleRayleigh defaultNishita)

/-- A 3D vector over the reals (a sky direction). -/
abbrev Vec3 := ℝ × ℝ × ℝ

/-- Dot product of two 3D vectors. -/
def dot (a b : Vec3) : ℝ :=
  a.1 * b.1 + a.2.1 * b.2.1 + a.2.2 * b.2.2

/-- A unit-length direction (the spec's `SkyDirection`). -/
def UnitVector (v : Vec3) : Prop := dot v v = 1

/-- Modelled from the spec: the non-negativity input constraint
("coefficients must be non-negative") on the configuration scalars that
scale the radiance — the three `rayleigh_coefficient` channels, the
`mie_coefficient` and the `sun_intensity` brightness. -/
def NonnegCoefficients (p : ScatteringParameters) : Prop :=
  0 ≤ p.rayleigh_coefficient.1 ∧ 0 ≤ p.rayleigh_coefficient.2.1 ∧
    0 ≤ p.rayleigh_coefficient.2.2 ∧ 0 ≤ p.mie_coefficient ∧
    0 ≤ p.sun_intensity

instance (p : ScatteringParameters) : Decidable (NonnegCoefficients p) := by
  unfold NonnegCoefficients
  infer_instance

/-- Modelled from the spec: the optical depth of the view ray, "computed
via ray-sphere intersection with the planet and atmosphere radii" — for
an observer on the planet surface, the distance along the unit direction
`v` to the atmosphere sphere (the positive root of the ray-sphere
equation, with `b` the projection of the observer position onto `v`),
clamped at zero when the ray does not travel through the shell; density
is taken uniform so the depth is the traversed length. -/
noncomputable def opticalDepth (p : ScatteringParameters) (v : Vec3) : ℝ :=
  max 0 (Real.sqrt ((p.planet_radius : ℝ) ^ 2 * v.2.1 ^ 2 +
      (p.atmosphere_radius : ℝ) ^ 2 - (p.planet_radius : ℝ) ^ 2) -
    (p.planet_radius : ℝ) * v.2.1)

/-- Modelled from the spec: attenuation by the optical depth. -/
noncomputable def transmittance (p : ScatteringParameters) (v : Vec3) : ℝ :=
  Real.exp (-(opticalDepth p v))

/-- Modelled from the spec: the in-scattering integral along the view ray
under uniform density — traversed length times attenuation. -/
noncomputable def inScatterFactor (p : ScatteringParameters) (v : Vec3) : ℝ :=
  opticalDepth p v * transmittance p v

/-- Modelled from the spec: the Rayleigh phase function at sun-view
cosine `μ`. -/
noncomputable def phaseRayleigh (μ : ℝ) : ℝ :=
  3 / (16 * Real.pi) * (1 + μ ^ 2)

/-- Modelled from the spec: the forward-peaked Mie phase function
(Henyey-Greenstein form) at sun-view cosine `μ`.  The asymmetry
`mie_direction` is a "preferred scattering direction", i.e. a mean
direction cosine, so the model reads it in its physical range
`[-1, 1]`. -/
noncomputable def phaseMie (g μ : ℝ) : ℝ :=
  3 / (8 * Real.pi) *
    ((1 - (max (-1) (min 1 g)) ^ 2) * (1 + μ ^ 2)) /
    ((2 + (max (-1) (min 1 g)) ^ 2) *
      Real.sqrt ((1 + (max (-1) (min 1 g)) ^ 2 -
        2 * (max (-1) (min 1 g)) * μ) ^ 3))

/-- Modelled from the spec: one colour channel of the Nishita radiance —
the Rayleigh contribution for that channel's coefficient `k` and the Mie
contribution, each weighted by its phase function at the sun-view angle,
scaled by the sun intensity and the in-scattering factor. -/
noncomputable def nishitaChannel (sun view : Vec3)
    (p : ScatteringParameters) (k : ℚ) : ℝ :=
  (p.sun_intensity : ℝ) *
    ((k : ℝ) * phaseRayleigh (dot sun view) +
      (p.mie_coefficient : ℝ) * phaseMie (p.mie_direction : ℝ) (dot sun view)) *
    inScatterFactor p view

/-- Modelled from the spec: the `nishita` scattering function
(`src/collection/mod.rs` declares the `nishita` module; its body is not
among the sources) — sun direction, view direction and
`ScatteringParameters` to an RGB `RadianceSample`. -/
noncomputable def nishita (sun view : Vec3) (p : ScatteringParameters) :
    ℝ × ℝ × ℝ :=
  (nishitaChannel sun view p p.rayleigh_coefficient.1,
    nishitaChannel sun view p p.rayleigh_coefficient.2.1,
    nishitaChannel sun view p p.rayleigh_coefficient.2.2)

/-- Selects one colour channel of an RGB triple. -/
def channel : Fin 3 → ℝ × ℝ × ℝ → ℝ
  | 0, c => c.1
  | 1, c => c.2.1
  | 2, c => c.2.2

/-- Selects one channel of `rayleigh_coefficient`. -/
def rayleighChannel (i : Fin 3) (p : ScatteringParameters) : ℚ :=
  if i = 0 then p.rayleigh_coefficient.1
  else if i = 1 then p.rayleigh_coefficient.2.1
  else p.rayleigh_coefficient.2.2

end Atmosphere

open Atmosphere Splitscreen

theorem phaseRayleigh_nonneg (μ : ℝ) : 0 ≤ phaseRayleigh μ := by
  unfold phaseRayleigh
  have hπ := Real.pi_pos
  positivity

theorem phaseMie_nonneg (g μ : ℝ) : 0 ≤ phaseMie g μ := by
  unfold phaseMie
  have h1 : -1 ≤ max (-1 : ℝ) (min 1 g) := le_max_left _ _
  have h2 : max (-1 : ℝ) (min 1 g) ≤ 1 := max_le (by norm_num) (min_le_left _ _)
  have h3 : (0 : ℝ) ≤ 1 - (max (-1 : ℝ) (min 1 g)) ^ 2 := by nlinarith
  have hπ := Real.pi_pos
  apply div_nonneg
  · exact mul_nonneg (by positivity) (mul_nonneg h3 (by positivity))
  · exact mul_nonneg (by positivity) (Real.sqrt_nonneg _)

theorem opticalDepth_nonneg (p : ScatteringParameters) (v : Vec3) :
    0 ≤ opticalDepth p v :=
  le_max_left 0 _

theorem inScatterFactor_nonneg (p : ScatteringParameters) (v : Vec3) :
    0 ≤ inScatterFactor p v :=
  mul_nonneg (opticalDepth_nonneg p v) (Real.exp_pos _).le

theorem nishitaChannel_nonneg (sun view : Vec3) (p : ScatteringParameters)
    (k : ℚ) (hk : 0 ≤ k) (hm : 0 ≤ p.mie_coefficient)
    (hI : 0 ≤ p.sun_intensity) : 0 ≤ nishitaChannel sun view p k := by
  unfold nishitaChannel
  have hk' : (0 : ℝ) ≤ (k : ℝ) := by exact_mod_cast hk
  have hm' : (0 : ℝ) ≤ (p.mie_coefficient : ℝ) := by exact_mod_cast hm
  have hI' : (0 : ℝ) ≤ (p.sun_intensity : ℝ) := by exact_mod_cast hI
  exact mul_nonneg
    (mul_nonneg hI'
      (add_nonneg (mul_nonneg hk' (phaseRayleigh_nonneg _))
        (mul_nonneg hm' (phaseMie_nonneg _ _))))
    (inScatterFactor_nonneg p view)

theorem nishitaChannel_congr (sun view : Vec3) (p q : ScatteringParameters)
    (hmie : q.mie_coefficient = p.mie_coefficient)
    (hg : q.mie_direction = p.mie_direction)
    (hsi : q.sun_intensity = p.sun_intensity)
    (hrp : q.planet_radius = p.planet_radius)
    (hra : q.atmosphere_radius = p.atmosphere_radius) (k : ℚ) :
    nishitaChannel sun view q k = nishitaChannel sun view p k := by
  unfold nishitaChannel inScatterFactor transmittance opticalDepth
  rw [hmie, hg, hsi, hrp, hra]

theorem nishitaChannel_mono (sun view : Vec3) (p : ScatteringParameters)
    (k l : ℚ) (hkl : k ≤ l) (hm : 0 ≤ p.mie_coefficient)
    (hI : 0 ≤ p.sun_intensity) :
    nishitaChannel sun view p k ≤ nishitaChannel sun view p l := by
  unfold nishitaChannel
  have hkl' : (k : ℝ) ≤ (l : ℝ) := by exact_mod_cast hkl
  have hm' : (0 : ℝ) ≤ (p.mie_coefficient : ℝ) := by exact_mod_cast hm
  have hI' : (0 : ℝ) ≤ (p.sun_intensity : ℝ) := by exact_mod_cast hI
  apply mul_le_mul_of_nonneg_right _ (inScatterFactor_nonneg p view)
  apply mul_le_mul_of_nonneg_left _ hI'
  exact add_le_add_right
    (mul_le_mul_of_nonneg_right hkl' (phaseRayleigh_nonneg _)) _

/-- C6: for unit sun and view directions and a `ScatteringParameters` with
non-negative coefficients, each RGB channel of the Nishita radiance is
non-negative (the model is real-valued, so each channel is a finite real
by construction). -/
theorem nishita_nonneg (sun view : Vec3) (p : ScatteringParameters)
    (hsun : UnitVector sun) (hview : UnitVector view)
    (hp : NonnegCoefficients p) :
    0 ≤ (nishita sun view p).1 ∧ 0 ≤ (nishita sun view p).2.1 ∧
      0 ≤ (nishita sun view p).2.2 := by
  obtain ⟨h1, h2, h3, hm, hI⟩ := hp
  exact ⟨nishitaChannel_nonneg sun view p _ h1 hm hI,
    nishitaChannel_nonneg sun view p _ h2 hm hI,
    nishitaChannel_nonneg sun view p _ h3 hm hI⟩

/-- Witness for C6 at sun `(0, 0, 1)`, view `(0, 1, 0)` and the default
Nishita parameters. -/
theorem nishita_nonneg_witness :
    UnitVector ((0 : ℝ), (0 : ℝ), (1 : ℝ)) ∧
      NonnegCoefficients defaultNishita ∧
      0 ≤ (nishita (0, 0, 1) (0, 1, 0) defaultNishita).1 :=
  ⟨by norm_num [UnitVector, dot], by norm_num [NonnegCoefficients, defaultNishita],
    (nishita_nonneg (0, 0, 1) (0, 1, 0) defaultNishita
      (by norm_num [UnitVector, dot]) (by norm_num [UnitVector, dot])
      (by norm_num [NonnegCoefficients, defaultNishita])).1⟩

/-- C7: with the sun direction, view direction and every other parameter
held fixed, increasing one channel of `rayleigh_coefficient` yields a
radiance in the corresponding channel that is greater than or equal to
the radiance at the smaller coefficient (parameters satisfy the data
model's non-negativity invariant). -/
theorem nishita_rayleigh_mono (sun view : Vec3) (i : Fin 3)
    (p q : ScatteringParameters)
    (hmie : q.mie_coefficient = p.mie_coefficient)
    (hg : q.mie_direction = p.mie_direction)
    (hsi : q.sun_intensity = p.sun_intensity)
    (hrp : q.planet_radius = p.planet_radius)
    (hra : q.atmosphere_radius = p.atmosphere_radius)
    (hothers : ∀ j, j ≠ i → rayleighChannel j q = rayleighChannel j p)
    (hle : rayleighChannel i p ≤ rayleighChannel i q)
    (hp : NonnegCoefficients p) :
    Atmosphere.channel i (nishita sun view p) ≤
      Atmosphere.channel i (nishita sun view q) := by
  obtain ⟨_, _, _, hm, hI⟩ := hp
  have key1 : Atmosphere.channel i (nishita sun view p) =
      nishitaChannel sun view p (rayleighChannel i p) := by
    fin_cases i <;> rfl
  have key2 : Atmosphere.channel i (nishita sun view q) =
      nishitaChannel sun view q (rayleighChannel i q) := by
    fin_cases i <;> rfl
  rw [key1, key2, nishitaChannel_congr sun view p q hmie hg hsi hrp hra]
  exact nishitaChannel_mono sun view p _ _ hle hm hI

/-- Witness for C7: doubling only the first `rayleigh_coefficient`
channel of the default parameters does not decrease the red channel. -/
theorem nishita_rayleigh_mono_witness :
    NonnegCoefficients defaultNishita ∧
      rayleighChannel 0 defaultNishita ≤
        rayleighChannel 0
          { defaultNishita with
              rayleigh_coefficient := (11 / 1000000, 13 / 1000000, 28 / 1250000) } ∧
      Atmosphere.channel 0 (nishita (0, 0, 1) (0, 1, 0) defaultNishita) ≤
        Atmosphere.channel 0 (nishita (0, 0, 1) (0, 1, 0)
          { defaultNishita with
              rayleigh_coefficient := (11 / 1000000, 13 / 1000000, 28 / 1250000) }) :=
  ⟨by norm_num [NonnegCoefficients, defaultNishita],
    by norm_num [rayleighChannel, defaultNishita],
    nishita_rayleigh_mono (0, 0, 1) (0, 1, 0) 0 defaultNishita
      { defaultNishita with
          rayleigh_coefficient := (11 / 1000000, 13 / 1000000, 28 / 1250000) }
      rfl rfl rfl rfl rfl
      (by intro j hj; fin_cases j
          · exact absurd rfl hj
          · rfl
          · rfl)
      (by norm_num [rayleighChannel, defaultNishita])
      (by norm_num [NonnegCoefficients, defaultNishita])⟩

/-- C1: the two simultaneously active cameras have skybox layer set `{1}`
(left) and `{2}` (right); these are disjoint, so each camera's sky
geometry is not visible to the other camera's layer set; the two
cameras' full layer sets share exactly layer 0, the layer of the common
scene geometry (plane and light). -/
theorem skybox_layers_disjoint :
    leftAtmosphereCamera = some {1} ∧ rightAtmosphereCamera = some {2} ∧
      Disjoint ({1} : RenderLayers) ({2} : RenderLayers) ∧
      ¬ visibleTo {1} rightCameraRenderLayers ∧
      ¬ visibleTo {2} leftCameraRenderLayers ∧
      leftCameraRenderLayers ∩ rightCameraRenderLayers = {0} ∧
      planeRenderLayers = {0} ∧ lightRenderLayers = {0} := by
  refine ⟨rfl, rfl, ?_, ?_, ?_, ?_, rfl, rfl⟩ <;>
    simp [visibleTo, leftCameraRenderLayers, rightCameraRenderLayers,
      Finset.disjoint_left]

/-- C2: in the end-to-end splitscreen scenario, camera L (entity 0) is
bound to skybox layer set `{1}` with P1, the default Nishita parameters,
and camera R (entity 1) to `{2}` with P2, the default with its
`rayleigh_coefficient` doubled; `resolve` returns exactly each camera's
own pair, and P1 and P2 are distinct. -/
theorem scenario_resolution :
    resolve scenarioBindings 0 = .ok ⟨{1}, defaultNishita⟩ ∧
      resolve scenarioBindings 1 = .ok ⟨{2}, doubleRayleigh defaultNishita⟩ ∧
      doubleRayleigh defaultNishita ≠ defaultNishita := by
  refine ⟨rfl, rfl, ?_⟩
  intro h
  have h1 := congrArg (fun p => p.rayleigh_coefficient.1) h
  norm_num [doubleRayleigh, defaultNishita] at h1

/-- C3: the example application inserts exactly one `AtmosphereModel`
resource, neither camera's components include a per-camera parameter
instance, and the default parameter resolution for both cameras reads
the same shared instance. -/
theorem shared_model_default :
    Atmosphere.appResources.countP AppResource.isAtmosphereModel = 1 ∧
      Atmosphere.leftCameraComponents.any
        CameraComponent.isParamsInstance = false ∧
      Atmosphere.rightCameraComponents.any
        CameraComponent.isParamsInstance = false ∧
      resolveParams Atmosphere.leftCameraComponents exampleNishita =
        exampleNishita ∧
      resolveParams Atmosphere.rightCameraComponents exampleNishita =
        exampleNishita ∧
      resolveParams Atmosphere.leftCameraComponents exampleNishita =
        resolveParams Atmosphere.rightCameraComponents exampleNishita :=
  ⟨rfl, rfl, rfl, rfl, rfl, rfl⟩

/-- C5: `resolve` on a camera with no binding fails with `UnboundCamera`;
after `bind` it succeeds with the bound pair; after a subsequent
`unbind` it fails again with `UnboundCamera`. -/
theorem bind_resolve_unbind (st : BindState) (c : ℕ) (ls : RenderLayers)
    (p : ScatteringParameters) (h : st c = none) :
    resolve st c = .error .UnboundCamera ∧
      resolve (Atmosphere.bind st c ls p) c = .ok ⟨ls, p⟩ ∧
      resolve (unbind (Atmosphere.bind st c ls p) c) c =
        .error .UnboundCamera := by
  refine ⟨?_, ?_, ?_⟩ <;>
    simp [resolve, Atmosphere.bind, unbind, h]

/-- Witness for C5 on the empty binding table, camera 0, layer set `{1}`
and the default parameters. -/
theorem bind_resolve_unbind_witness :
    emptyBindings 0 = none ∧
      resolve emptyBindings 0 = .error .UnboundCamera ∧
      resolve (Atmosphere.bind emptyBindings 0 {1} defaultNishita) 0 =
        .ok ⟨{1}, defaultNishita⟩ ∧
      resolve (unbind (Atmosphere.bind emptyBindings 0 {1} defaultNishita) 0)
          0 = .error .UnboundCamera :=
  ⟨rfl, bind_resolve_unbind emptyBindings 0 {1} defaultNishita rfl⟩

/-- C4: in a frame with no resize event, `set_camera_viewports` leaves
both cameras' viewport fields untouched; for a `WindowResized` event
whose window has physical size `(w, h)`, the left camera's viewport
becomes position `(0, 0)`, size `(w / 2, h)` and the right camera's
becomes position `(w / 2, 0)`, size `(w / 2, h)` — a pure function of
the new window size; a one-event frame processes exactly that event. -/
theorem set_camera_viewports_spec (windows : ℕ → Option (ℕ × ℕ))
    (s : CamState) (ev : WindowResized) (w h : ℕ) (cl cr : Camera)
    (hw : windows ev.window = some (w, h))
    (hl : s.left = [cl]) (hr : s.right = [cr]) :
    set_camera_viewports windows [] s = some s ∧
      set_camera_viewports windows [ev] s = applyResize windows s ev ∧
      applyResize windows s ev =
        some { left := [⟨some (leftViewport w h)⟩],
               right := [⟨some (rightViewport w h)⟩] } := by
  refine ⟨rfl, rfl, ?_⟩
  simp [applyResize, hw, hl, hr, updateSingle]

/-- Witness for C4 on a 800 by 600 window and fresh cameras. -/
theorem set_camera_viewports_spec_witness :
    set_camera_viewports (fun _ => some (800, 600)) []
        ⟨[⟨none⟩], [⟨none⟩]⟩ = some ⟨[⟨none⟩], [⟨none⟩]⟩ ∧
      applyResize (fun _ => some (800, 600)) ⟨[⟨none⟩], [⟨none⟩]⟩ ⟨0⟩ =
        some ⟨[⟨some (leftViewport 800 600)⟩],
          [⟨some (rightViewport 800 600)⟩]⟩ :=
  ⟨(set_camera_viewports_spec (fun _ => some (800, 600))
      ⟨[⟨none⟩], [⟨none⟩]⟩ ⟨0⟩ 800 600 ⟨none⟩ ⟨none⟩ rfl rfl rfl).1,
    (set_camera_viewports_spec (fun _ => some (800, 600))
      ⟨[⟨none⟩], [⟨none⟩]⟩ ⟨0⟩ 800 600 ⟨none⟩ ⟨none⟩ rfl rfl rfl).2.2⟩

/-- C8: for every window size `(w, h)`, the pixel-column ranges of the
two computed viewports are disjoint; when `w` is odd their union is the
columns `[0, w - 1)`, so the window's last column `w - 1` is covered by
neither half. -/
theorem viewports_partition (w h : ℕ) :
    Disjoint (columns (leftViewport w h)) (columns (rightViewport w h)) ∧
      (Odd w →
        columns (leftViewport w h) ∪ columns (rightViewport w h) =
            Finset.Ico 0 (w - 1) ∧
          w - 1 ∉ columns (leftViewport w h) ∪ columns (rightViewport w h)) := by
  have hl : columns (leftViewport w h) = Finset.Ico 0 (w / 2) := by
    simp [columns, leftViewport]
  have hr : columns (rightViewport w h) =
      Finset.Ico (w / 2) (w / 2 + w / 2) := rfl
  constructor
  · rw [hl, hr]
    exact Finset.Ico_disjoint_Ico_consecutive 0 (w / 2) (w / 2 + w / 2)
  · intro ho
    obtain ⟨k, hk⟩ := ho
    have hsum : w / 2 + w / 2 = w - 1 := by omega
    have hu : columns (leftViewport w h) ∪ columns (rightViewport w h) =
        Finset.Ico 0 (w - 1) := by
      rw [hl, hr,
        Finset.Ico_union_Ico_eq_Ico (Nat.zero_le _) (Nat.le_add_right _ _),
        hsum]
    refine ⟨hu, ?_⟩
    rw [hu]
    simp

/-- Witness for C8 at the odd window width 5. -/
theorem viewports_partition_witness :
    Odd 5 ∧
      columns (leftViewport 5 3) ∪ columns (rightViewport 5 3) =
          Finset.Ico 0 4 ∧
        4 ∉ columns (leftViewport 5 3) ∪ columns (rightViewport 5 3) :=
  ⟨⟨2, by norm_num⟩, (viewports_partition 5 3).2 ⟨2, by norm_num⟩⟩

/-- C9: when E is just pressed and each camera query matches exactly one
entity, `switch_camera` sets the active spectator to the right camera if
it was the left camera and to the left camera in every other case (right
camera, any other entity, or none); applying the switch twice from the
left or the right camera restores the original active spectator. -/
theorem switch_camera_spec (l r : ℕ) (s : SpectatorSettings) (hne : l ≠ r) :
    (s.active_spectator = some l →
        (switch_camera true [l] [r] s).active_spectator = some r) ∧
      (∀ e, s.active_spectator = some e → e ≠ l →
        (switch_camera true [l] [r] s).active_spectator = some l) ∧
      (s.active_spectator = none →
        (switch_camera true [l] [r] s).active_spectator = some l) ∧
      ((s.active_spectator = some l ∨ s.active_spectator = some r) →
        (switch_camera true [l] [r]
            (switch_camera true [l] [r] s)).active_spectator =
          s.active_spectator) := by
  refine ⟨?_, ?_, ?_, ?_⟩
  · intro h
    simp [switch_camera, h]
  · intro e he hel
    simp [switch_camera, he, hel]
  · intro h
    simp [switch_camera, h]
  · rintro (h | h) <;> simp [switch_camera, h, hne, Ne.symm hne]

/-- Witness for C9 with left camera 0, right camera 1, active spectator
the left camera. -/
theorem switch_camera_spec_witness :
    (0 : ℕ) ≠ 1 ∧
      (switch_camera true [0] [1]
          ⟨some 0, 1 / 2, 1⟩).active_spectator = some 1 :=
  ⟨by decide,
    (switch_camera_spec 0 1 ⟨some 0, 1 / 2, 1⟩ (by decide)).1 rfl⟩

/-- C10: when the left camera query or the right camera query does not
match exactly one entity, `switch_camera` returns early and leaves the
spectator settings entirely unchanged, even when E was just pressed. -/
theorem switch_camera_early_return (pressedE : Bool)
    (leftQ rightQ : List ℕ) (s : SpectatorSettings)
    (h : leftQ.length ≠ 1 ∨ rightQ.length ≠ 1) :
    switch_camera pressedE leftQ rightQ s = s := by
  rcases leftQ with _ | ⟨a, _ | ⟨b, t⟩⟩ <;>
    rcases rightQ with _ | ⟨c, _ | ⟨d, u⟩⟩ <;>
    first
      | rfl
      | (exfalso; simp at h)

/-- Witness for C10: an empty left-camera query with E pressed changes
nothing. -/
theorem switch_camera_early_return_witness :
    (([] : List ℕ).length ≠ 1 ∨ ([5] : List ℕ).length ≠ 1) ∧
      switch_camera true [] [5] ⟨some 3, 1 / 2, 1⟩ = ⟨some 3, 1 / 2, 1⟩ :=
  ⟨Or.inl (by decide),
    switch_camera_early_return true [] [5] ⟨some 3, 1 / 2, 1⟩
      (Or.inl (by decide))⟩
